import Mathlib

/-!
Verification of the error-classification and resilience subsystem of the
template-typescript-app repository.

Embedded source files:
* `packages/utils/src/error/error-handler.ts` (classifyError and helpers)
* `packages/utils/src/error/error-logger.ts`  (ErrorLogger.logError)
* `packages/utils/src/error/retry.ts`         (calculateDelay, isRetryableError, withRetry)
* `packages/database/src/utils/transactions.ts` (retryTransaction)
* `packages/types` error code enum and the `isApiErrorResponse` type guard.

Modelling conventions:
* A thrown value of TypeScript type `Error | ApiErrorResponse` is the sum type
  `ErrVal`: the `isApiErrorResponse` type guard corresponds to matching on the
  `apiError` constructor.
* An asynchronous operation under retry is a function from the (1-based)
  attempt number to `Except ErrVal α` (resolve = `ok`, reject = `error`).
* The retry engines return the pair (final outcome, number of invocations of
  the wrapped operation).  Backoff sleeps, `onRetry`/`onMaxRetriesReached`
  callbacks and log emission inside the loop are effects that change neither
  the settled value of the returned promise nor the invocation count, so they
  do not appear in the returned pair.
* Durations and the multiplier are rationals (`ℚ`); `Math.random()` is the
  injected jitter argument `rand`.
-/

/-- JavaScript `String.prototype.startsWith` on character lists. -/
def charsStartWith : List Char → List Char → Bool
  | [], _ => true
  | _ :: _, [] => false
  | p :: ps, c :: cs => p == c && charsStartWith ps cs

/-- Character-list search used to model `String.prototype.includes`. -/
def charsContain (pat : List Char) : List Char → Bool
  | [] => charsStartWith pat []
  | c :: cs => charsStartWith pat (c :: cs) || charsContain pat cs

/-- JavaScript `s.includes(pat)`. -/
def strIncludes (s pat : String) : Bool :=
  charsContain pat.data s.data

/-- JavaScript `s.toLowerCase()` (for the ASCII `name`/`message` strings the
classifier heuristics look at). -/
def strToLower (s : String) : String :=
  ⟨s.data.map Char.toLower⟩

/-- `ErrorCode` enum from `packages/types` (api/errors). -/
inductive ErrorCode
  | VALIDATION_ERROR
  | INVALID_REQUEST
  | UNAUTHORIZED
  | FORBIDDEN
  | NOT_FOUND
  | CONFLICT
  | RATE_LIMIT_EXCEEDED
  | TOKEN_EXPIRED
  | INVALID_TOKEN
  | TOKEN_MISSING
  | BUSINESS_RULE_VIOLATION
  | RESOURCE_NOT_AVAILABLE
  | OPERATION_NOT_ALLOWED
  | INTERNAL_ERROR
  | SERVICE_UNAVAILABLE
  | DATABASE_ERROR
  | EXTERNAL_SERVICE_ERROR
  deriving DecidableEq, BEq, Repr

/-- The string value of each `ErrorCode` enum member (the TS enum is string-valued). -/
def errorCodeStr : ErrorCode → String
  | .VALIDATION_ERROR => "VALIDATION_ERROR"
  | .INVALID_REQUEST => "INVALID_REQUEST"
  | .UNAUTHORIZED => "UNAUTHORIZED"
  | .FORBIDDEN => "FORBIDDEN"
  | .NOT_FOUND => "NOT_FOUND"
  | .CONFLICT => "CONFLICT"
  | .RATE_LIMIT_EXCEEDED => "RATE_LIMIT_EXCEEDED"
  | .TOKEN_EXPIRED => "TOKEN_EXPIRED"
  | .INVALID_TOKEN => "INVALID_TOKEN"
  | .TOKEN_MISSING => "TOKEN_MISSING"
  | .BUSINESS_RULE_VIOLATION => "BUSINESS_RULE_VIOLATION"
  | .RESOURCE_NOT_AVAILABLE => "RESOURCE_NOT_AVAILABLE"
  | .OPERATION_NOT_ALLOWED => "OPERATION_NOT_ALLOWED"
  | .INTERNAL_ERROR => "INTERNAL_ERROR"
  | .SERVICE_UNAVAILABLE => "SERVICE_UNAVAILABLE"
  | .DATABASE_ERROR => "DATABASE_ERROR"
  | .EXTERNAL_SERVICE_ERROR => "EXTERNAL_SERVICE_ERROR"

/-- A value of TS type `Error | ApiErrorResponse`.
`apiError code message` is an `ApiErrorResponse` (`success: false`, `error.code`,
`error.message`); the `isApiErrorResponse` type guard is matching on this
constructor.  `jsError name message` is a JavaScript `Error` with its `name`
and `message` fields (the `stack` field is not needed by the embedded code). -/
inductive ErrVal
  | apiError (code : ErrorCode) (message : String)
  | jsError (name message : String)
  deriving DecidableEq, Repr

/-- `ErrorClassification` from `error-handler.ts`. -/
structure ErrorClassification where
  isOperational : Bool
  isRetryable : Bool
  severity : String   -- one of "low" | "medium" | "high" | "critical"
  category : String   -- one of "user" | "system" | "network" | "business"
  deriving DecidableEq, Repr

/-- `classifyApiErrorResponse` from `error-handler.ts` lines 40-126: the switch
on `error.error.code`.  `BUSINESS_RULE_VIOLATION` is not listed in the switch,
so it falls into the `INTERNAL_ERROR`/default branch. -/
def classifyApiErrorResponse (code : ErrorCode) : ErrorClassification :=
  match code with
  | .VALIDATION_ERROR | .INVALID_REQUEST =>
    { isOperational := true, isRetryable := false, severity := "low", category := "user" }
  | .UNAUTHORIZED | .TOKEN_EXPIRED | .INVALID_TOKEN | .TOKEN_MISSING =>
    { isOperational := true, isRetryable := false, severity := "medium", category := "user" }
  | .FORBIDDEN | .OPERATION_NOT_ALLOWED =>
    { isOperational := true, isRetryable := false, severity := "medium", category := "business" }
  | .NOT_FOUND | .RESOURCE_NOT_AVAILABLE =>
    { isOperational := true, isRetryable := false, severity := "low", category := "user" }
  | .CONFLICT =>
    { isOperational := true, isRetryable := false, severity := "medium", category := "business" }
  | .RATE_LIMIT_EXCEEDED =>
    { isOperational := true, isRetryable := true, severity := "medium", category := "system" }
  | .SERVICE_UNAVAILABLE | .EXTERNAL_SERVICE_ERROR =>
    { isOperational := true, isRetryable := true, severity := "high", category := "network" }
  | .DATABASE_ERROR =>
    { isOperational := true, isRetryable := true, severity := "high", category := "system" }
  | .INTERNAL_ERROR | .BUSINESS_RULE_VIOLATION =>
    { isOperational := false, isRetryable := false, severity := "critical", category := "system" }

/-- `classifyJavaScriptError` from `error-handler.ts` lines 131-185: substring
heuristics over the lowercased `message` and `name` of the `Error`. -/
def classifyJavaScriptError (nm message : String) : ErrorClassification :=
  let msg := strToLower message
  let lnm := strToLower nm
  if strIncludes msg "network" || strIncludes msg "fetch" ||
     strIncludes msg "timeout" || strIncludes lnm "timeout" then
    { isOperational := true, isRetryable := true, severity := "medium", category := "network" }
  else if lnm == "validationerror" || strIncludes msg "validation" ||
          strIncludes msg "invalid" then
    { isOperational := true, isRetryable := false, severity := "low", category := "user" }
  else if lnm == "typeerror" || lnm == "referenceerror" || lnm == "syntaxerror" then
    { isOperational := false, isRetryable := false, severity := "critical", category := "system" }
  else
    { isOperational := true, isRetryable := false, severity := "medium", category := "system" }

/-- `classifyError` from `error-handler.ts` lines 25-35: dispatch on the
`isApiErrorResponse` type guard. -/
def classifyError : ErrVal → ErrorClassification
  | .apiError code _ => classifyApiErrorResponse code
  | .jsError nm message => classifyJavaScriptError nm message

/-- `RetryOptions` from `retry.ts` lines 16-24.  The optional `onRetry` /
`onMaxRetriesReached` callbacks are side-effect-only and not modelled. -/
structure RetryOptions where
  maxRetries : ℕ
  baseDelay : ℚ
  maxDelay : ℚ
  backoffMultiplier : ℚ
  retryableErrors : List ErrorCode
  deriving Repr

/-- `DEFAULT_RETRY_OPTIONS` from `retry.ts` lines 29-40. -/
def DEFAULT_RETRY_OPTIONS : RetryOptions :=
  { maxRetries := 3
    baseDelay := 1000
    maxDelay := 30000
    backoffMultiplier := 2
    retryableErrors :=
      [.RATE_LIMIT_EXCEEDED, .SERVICE_UNAVAILABLE, .EXTERNAL_SERVICE_ERROR, .DATABASE_ERROR] }

/-- `calculateDelay` from `retry.ts` lines 45-54.  `rand` is the value drawn
from `Math.random()` (a number in `[0,1)`); the source computes
`delay = baseDelay * backoffMultiplier^(attempt-1)`, adds a 10% jitter
`rand * 0.1 * delay`, and caps the sum at `maxDelay`. -/
def calculateDelay (attempt : ℕ) (baseDelay maxDelay backoffMultiplier rand : ℚ) : ℚ :=
  let delay := baseDelay * backoffMultiplier ^ (attempt - 1)
  let jitter := rand * (1 / 10) * delay
  min (delay + jitter) maxDelay

/-- `isRetryableError` from `retry.ts` lines 59-71: an `ApiErrorResponse` is
retryable iff its code is in `retryableErrors`; a JavaScript `Error` is
retryable iff `classifyError` marks it retryable. -/
def isRetryableError (e : ErrVal) (retryableErrors : List ErrorCode) : Bool :=
  match e with
  | .apiError code _ => retryableErrors.contains code
  | .jsError nm message => (classifyError (.jsError nm message)).isRetryable

/-- The loop of `withRetry` (`retry.ts` lines 90-150), entered at iteration
`attempt` with `retriesLeft = maxRetries + 1 - attempt` further iterations
available after the current one.  Returns the settled outcome together with
the number of invocations of `fn` performed from this iteration on.
The `retriesLeft = 0` fallback inside the retry branch corresponds to the
source's unreachable final `throw lastError!` (line 153): the branch requires
`attempt ≤ maxRetries`, which forces `retriesLeft ≥ 1` under the stated
invariant, so theorems never rely on that fallback. -/
def withRetryGo {α : Type} (fn : ℕ → Except ErrVal α) (retryableErrors : List ErrorCode)
    (maxRetries : ℕ) : ℕ → ℕ → Except ErrVal α × ℕ
  | retriesLeft, attempt =>
    match fn attempt with
    | .ok v => (.ok v, 1)
    | .error e =>
      -- `if (attempt > config.maxRetries)`: exhaustion is checked first
      if maxRetries < attempt then (.error e, 1)
      -- `if (!isRetryableError(lastError, config.retryableErrors))`
      else if isRetryableError e retryableErrors then
        match retriesLeft with
        | 0 => (.error e, 1)
        | r + 1 =>
          let rest := withRetryGo fn retryableErrors maxRetries r (attempt + 1)
          (rest.1, rest.2 + 1)
      else (.error e, 1)

/-- `withRetry` from `retry.ts` lines 83-154, applied to an already-merged
configuration (`{...DEFAULT_RETRY_OPTIONS, ...options}`).  The wrapped
operation `fn` is given the attempt number (1-based) so that a different
outcome may be produced on every invocation. -/
def withRetry {α : Type} (fn : ℕ → Except ErrVal α) (config : RetryOptions) :
    Except ErrVal α × ℕ :=
  withRetryGo fn config.retryableErrors config.maxRetries config.maxRetries 1

/-- A value thrown inside `retryTransaction`: either a JavaScript `Error`
(`instanceof Error` holds) or any other thrown value. -/
inductive TxError
  | errorObj (nm message : String)
  | otherValue (description : String)
  deriving DecidableEq, Repr

/-- The retryability test of `retryTransaction` (`transactions.ts` lines
126-130): the thrown value must be an `Error` whose message contains one of
the three storage-engine signatures. -/
def txIsRetryable : TxError → Bool
  | .errorObj _ message =>
    strIncludes message "serialization_failure" ||
    strIncludes message "deadlock_detected" ||
    strIncludes message "could not serialize access"
  | .otherValue _ => false

/-- Outcome of `retryTransaction`: success, a thrown error value, or the
`throw lastError!` of an uninitialized `lastError` (which is `undefined` at
runtime). -/
inductive TxResult (α : Type)
  | ok (v : α)
  | thrown (e : TxError)
  | thrownUndefined
  deriving DecidableEq, Repr

/-- The loop of `retryTransaction` (`transactions.ts` lines 119-142), entered
at iteration `attempt` with `retriesLeft = maxRetries - attempt` further
iterations available.  When the loop guard `attempt ≤ maxRetries` fails on
entry (only possible when `maxRetries = 0`, since inside the loop
`attempt = maxRetries` always throws), the function reaches
`throw lastError!` with `lastError` never assigned: `thrownUndefined`.
The `retriesLeft = 0` fallback in the retry branch is unreachable under the
invariant (that branch requires `attempt < maxRetries`). -/
def retryTransactionGo {α : Type} (fn : ℕ → Except TxError α) (maxRetries : ℕ) :
    ℕ → ℕ → TxResult α × ℕ
  | retriesLeft, attempt =>
    if maxRetries < attempt then (.thrownUndefined, 0)
    else
      match fn attempt with
      | .ok v => (.ok v, 1)
      | .error e =>
        -- `if (!isRetryable || attempt === maxRetries) throw error`
        if !txIsRetryable e || attempt == maxRetries then (.thrown e, 1)
        else
          match retriesLeft with
          | 0 => (.thrown e, 1)
          | r + 1 =>
            let rest := retryTransactionGo fn maxRetries r (attempt + 1)
            (rest.1, rest.2 + 1)

/-- `retryTransaction` from `transactions.ts` lines 111-143.  `fn` is the
transactional operation (the `withTransaction` call of the source), given the
attempt number; the pair returned is (outcome, number of invocations). -/
def retryTransaction {α : Type} (fn : ℕ → Except TxError α) (maxRetries : ℕ) :
    TxResult α × ℕ :=
  retryTransactionGo fn maxRetries maxRetries 1

/-- `LogLevel` from `error-logger.ts` lines 362-367. -/
inductive LogLevel
  | error
  | warn
  | info
  | debug
  deriving DecidableEq, BEq, Repr

/-- `ErrorLogger.getLogLevel` from `error-logger.ts` lines 523-536 (the
`default` arm of the source switch is unreachable: `severity` produced by
`classifyError` is always one of the four listed strings, and any other
string also maps to `error` here, as in the source). -/
def getLogLevel (classification : ErrorClassification) : LogLevel :=
  if classification.severity == "critical" then .error
  else if classification.severity == "high" then .error
  else if classification.severity == "medium" then .warn
  else if classification.severity == "low" then .info
  else .error

/-- Serialized error shape from `ErrorLogger.serializeError`
(`error-logger.ts` lines 586-603).  The `stack` field of the JavaScript case
is dev-only and not carried by `ErrVal`, so it is omitted. -/
inductive SerializedError
  | api (success : Bool) (code : ErrorCode) (message : String)
  | js (nm message : String)
  deriving DecidableEq, Repr

/-- `ErrorLogger.serializeError` from `error-logger.ts` lines 586-603. -/
def serializeError : ErrVal → SerializedError
  | .apiError code message => .api false code message
  | .jsError nm message => .js nm message

/-- `ErrorLogger.getDefaultMessage` from `error-logger.ts` lines 541-547. -/
def getDefaultMessage : ErrVal → String
  | .apiError code message => "API Error: " ++ errorCodeStr code ++ " - " ++ message
  | .jsError nm message => "JavaScript Error: " ++ nm ++ " - " ++ message

/-- `LogContext` from `error-logger.ts` lines 390-400: the typed optional
correlation fields plus the free-form index signature (`extra`). -/
structure LogContext where
  traceId : Option String := none
  userId : Option String := none
  sessionId : Option String := none
  userAgent : Option String := none
  ip : Option String := none
  path : Option String := none
  extra : List (String × String) := []
  deriving Repr

/-- The `logData` record that `ErrorLogger.outputLog` (`error-logger.ts`
lines 552-581) hands to the console method selected by `level`. -/
structure LogData where
  timestamp : String
  level : LogLevel
  message : String
  context : List (String × String)
  classification : Option ErrorClassification
  error : Option SerializedError
  deriving Repr

/-- `LogEntry` from `error-logger.ts` lines 372-385. -/
structure LogEntry where
  level : LogLevel
  message : String
  timestamp : String
  error : Option ErrVal := none
  classification : Option ErrorClassification := none
  context : List (String × String) := []
  traceId : Option String := none
  userId : Option String := none
  sessionId : Option String := none
  userAgent : Option String := none
  ip : Option String := none
  path : Option String := none
  deriving Repr

/-- The external console: one call per emission, dispatched on the log level
(the source's `switch` choosing `console.error` / `console.warn` /
`console.info` / `console.debug`).  It is the only effectful collaborator of
`ErrorLogger.logError`; a sink that throws models a failing emission. -/
def ConsoleSink : Type := LogLevel → LogData → Except String Unit

/-- `ErrorLogger.outputLog` from `error-logger.ts` lines 552-581: build
`logData` from the entry and invoke the console method for its level. -/
def outputLog (consoleSink : ConsoleSink) (entry : LogEntry) : Except String Unit :=
  let logData : LogData :=
    { timestamp := entry.timestamp
      level := entry.level
      message := entry.message
      context := entry.context
      classification := entry.classification
      error := entry.error.map serializeError }
  consoleSink entry.level logData

/-- `ErrorLogger.sendToMonitoringService` from `error-logger.ts` lines
609-618: a `console.info` call with a summary record of the entry. -/
def sendToMonitoringService (consoleSink : ConsoleSink) (entry : LogEntry) :
    Except String Unit :=
  consoleSink .info
    { timestamp := entry.timestamp
      level := entry.level
      message := entry.message
      context := []
      classification := none
      error := none }

namespace ErrorLogger

/-- `ErrorLogger.logError` from `error-logger.ts` lines 427-456.  The
instance state (`isDevelopment`, the accumulated `context`) and the ambient
timestamp (`new Date().toISOString()`) are explicit arguments; the object
spread `{...this.context, ...additionalContext}` that fills `entry.context`
is a right-biased merge, modelled as list append (later pairs shadow earlier
ones on lookup).  No part of the body is wrapped in an exception handler, so
the result of a console call propagates through the `do` sequencing exactly
as a thrown exception would. -/
def logError (consoleSink : ConsoleSink) (isDevelopment : Bool) (ctx : LogContext)
    (now : String) (error : ErrVal) (message : Option String)
    (additionalContext : List (String × String)) : Except String Unit := do
  let classification := classifyError error
  let level := getLogLevel classification
  let entry : LogEntry :=
    { level := level
      message := message.getD (getDefaultMessage error)
      timestamp := now
      error := some error
      classification := some classification
      context := ctx.extra ++ additionalContext
      traceId := ctx.traceId
      userId := ctx.userId
      sessionId := ctx.sessionId
      userAgent := ctx.userAgent
      ip := ctx.ip
      path := ctx.path }
  outputLog consoleSink entry
  if !isDevelopment && level == .error then
    sendToMonitoringService consoleSink entry
  else
    pure ()

end ErrorLogger

/-- Model of the spec's interface table row for the delay computation
("fails if `base<0` or `mult<1`", otherwise returns a duration), stated as an
`Option` so that the claimed failure is representable.  This definition
follows the spec's words, not the source; it exists to be compared with
`calculateDelay`, which performs no argument validation. -/
def calculateDelaySpec (attempt : ℕ) (baseDelay maxDelay backoffMultiplier rand : ℚ) :
    Option ℚ :=
  if baseDelay < 0 ∨ backoffMultiplier < 1 then none
  else some (calculateDelay attempt baseDelay maxDelay backoffMultiplier rand)

/-! ## Behaviour of the generic retry loop -/

/-- Loop invariant for a `withRetry` run whose every attempt fails with a
retryable error: entering iteration `attempt` with `retriesLeft` further
iterations available (`attempt + retriesLeft = maxRetries + 1`), the loop
performs the remaining `retriesLeft + 1` invocations and settles on the error
of the final attempt. -/
theorem withRetryGo_allFail {α : Type} (fn : ℕ → Except ErrVal α) (errs : ℕ → ErrVal)
    (codes : List ErrorCode) (N : ℕ)
    (hop : ∀ i, fn i = .error (errs i))
    (hr : ∀ i, isRetryableError (errs i) codes = true) :
    ∀ r attempt, 1 ≤ attempt → attempt + r = N + 1 →
      withRetryGo fn codes N r attempt = (.error (errs (N + 1)), r + 1) := by
  intro r
  induction r with
  | zero =>
    intro attempt h1 hsum
    have hN : attempt = N + 1 := by omega
    subst hN
    rw [withRetryGo, hop]
    simp [show N < N + 1 by omega]
  | succ r ih =>
    intro attempt h1 hsum
    have hle : ¬ (N < attempt) := by omega
    rw [withRetryGo, hop]
    simp only [hle, if_false, hr, if_true]
    rw [ih (attempt + 1) (by omega) (by omega)]

/-- `withRetry` under an operation whose every attempt fails retryably:
`maxRetries + 1` invocations, settling on the final error. -/
theorem withRetry_allFail {α : Type} (fn : ℕ → Except ErrVal α) (errs : ℕ → ErrVal)
    (config : RetryOptions)
    (hop : ∀ i, fn i = .error (errs i))
    (hr : ∀ i, isRetryableError (errs i) config.retryableErrors = true) :
    withRetry fn config =
      (.error (errs (config.maxRetries + 1)), config.maxRetries + 1) := by
  unfold withRetry
  rw [withRetryGo_allFail fn errs config.retryableErrors config.maxRetries hop hr
    config.maxRetries 1 le_rfl (by omega)]

/-- `withRetry` under a first attempt that fails non-retryably: a single
invocation, settling on that error, whatever `maxRetries` is. -/
theorem withRetry_nonRetryable {α : Type} (fn : ℕ → Except ErrVal α) (e : ErrVal)
    (config : RetryOptions)
    (hop : fn 1 = .error e)
    (hnr : isRetryableError e config.retryableErrors = false) :
    withRetry fn config = (.error e, 1) := by
  unfold withRetry
  rw [withRetryGo, hop]
  by_cases hM : config.maxRetries < 1
  · simp [hM]
  · simp [hM, hnr]

/-! ## Behaviour of the transaction retry loop -/

/-- Loop invariant for a `retryTransaction` run whose every attempt fails with
a retryable storage signature: entering iteration `attempt` (with
`attempt ≤ maxRetries` and `attempt + retriesLeft = maxRetries + 1`), the loop
performs the remaining `retriesLeft` invocations and throws the error of
attempt `maxRetries`. -/
theorem retryTransactionGo_allFail {α : Type} (fn : ℕ → Except TxError α)
    (errs : ℕ → TxError) (M : ℕ)
    (hop : ∀ i, fn i = .error (errs i))
    (hr : ∀ i, txIsRetryable (errs i) = true) :
    ∀ r attempt, 1 ≤ attempt → attempt ≤ M → attempt + r = M + 1 →
      retryTransactionGo fn M r attempt = (.thrown (errs M), r) := by
  intro r
  induction r with
  | zero =>
    intro attempt _ hM hsum
    omega
  | succ r ih =>
    intro attempt h1 hM hsum
    have hguard : ¬ (M < attempt) := by omega
    rw [retryTransactionGo, hop]
    by_cases hA : attempt = M
    · subst hA
      have hr0 : r = 0 := by omega
      subst hr0
      simp [hguard, hr]
    · have hlt : attempt < M := by omega
      simp only [hguard, if_false, hr, Bool.not_true, Bool.false_or, beq_iff_eq, hA, if_false]
      rw [ih (attempt + 1) (by omega) (by omega) (by omega)]

/-- `retryTransaction` under an operation whose every attempt fails with a
retryable storage signature: exactly `maxRetries` invocations, throwing the
final error. -/
theorem retryTransaction_allFail {α : Type} (fn : ℕ → Except TxError α)
    (errs : ℕ → TxError) (maxRetries : ℕ)
    (hop : ∀ i, fn i = .error (errs i))
    (hr : ∀ i, txIsRetryable (errs i) = true)
    (hM : 1 ≤ maxRetries) :
    retryTransaction fn maxRetries = (.thrown (errs maxRetries), maxRetries) := by
  unfold retryTransaction
  exact retryTransactionGo_allFail fn errs maxRetries hop hr maxRetries 1 le_rfl hM (by omega)

/-- `retryTransaction` under a first attempt that fails without a retryable
storage signature: a single invocation, throwing that error. -/
theorem retryTransaction_nonRetryable {α : Type} (fn : ℕ → Except TxError α) (e : TxError)
    (maxRetries : ℕ)
    (hop : fn 1 = .error e)
    (hnr : txIsRetryable e = false)
    (hM : 1 ≤ maxRetries) :
    retryTransaction fn maxRetries = (.thrown e, 1) := by
  unfold retryTransaction
  rw [retryTransactionGo, hop]
  simp [show ¬ (maxRetries < 1) by omega, hnr]

/-! ## Claims -/

/-- Claim C1: for an asynchronous operation failing on every invocation with a
retryable error and a policy with `maxRetries = N`, `withRetry` invokes the
operation exactly `N + 1` times and fails with the error of the last
invocation. -/
theorem withRetry_attempt_bound {α : Type} (fn : ℕ → Except ErrVal α) (errs : ℕ → ErrVal)
    (config : RetryOptions)
    (hop : ∀ i, fn i = .error (errs i))
    (hr : ∀ i, isRetryableError (errs i) config.retryableErrors = true) :
    withRetry fn config =
      (.error (errs (config.maxRetries + 1)), config.maxRetries + 1) :=
  withRetry_allFail fn errs config hop hr

/-- Witness for C1: an operation always rejecting with a `RATE_LIMIT_EXCEEDED`
API error under the default policy (`maxRetries = 3`) is invoked 4 times. -/
theorem withRetry_attempt_bound_witness :
    (withRetry (fun _ => .error (.apiError .RATE_LIMIT_EXCEEDED "rate limited"))
        DEFAULT_RETRY_OPTIONS : Except ErrVal ℕ × ℕ) =
      (.error (.apiError .RATE_LIMIT_EXCEEDED "rate limited"), 4) :=
  withRetry_attempt_bound (fun _ => .error (.apiError .RATE_LIMIT_EXCEEDED "rate limited"))
    (fun _ => .apiError .RATE_LIMIT_EXCEEDED "rate limited") DEFAULT_RETRY_OPTIONS
    (fun _ => rfl) (fun _ => rfl)

/-- Claim C2: every classification produced by `classifyError` (structured API
error or generic exception) with `isOperational = false` has
`severity = "critical"`. -/
theorem classifyError_pairing_invariant (e : ErrVal)
    (h : (classifyError e).isOperational = false) :
    (classifyError e).severity = "critical" := by
  cases e with
  | apiError code message =>
    cases code <;> simp_all [classifyError, classifyApiErrorResponse]
  | jsError nm message =>
    simp only [classifyError, classifyJavaScriptError] at h ⊢
    split_ifs at h ⊢ <;> simp_all

/-- Witness for C2: the classification of an `INTERNAL_ERROR` API error is
non-operational, and the theorem yields its criticality. -/
theorem classifyError_pairing_invariant_witness :
    (classifyError (.apiError .INTERNAL_ERROR "boom")).isOperational = false ∧
    (classifyError (.apiError .INTERNAL_ERROR "boom")).severity = "critical" :=
  ⟨rfl, classifyError_pairing_invariant (.apiError .INTERNAL_ERROR "boom") rfl⟩

/-- Claim C3: an operation whose first attempt fails with a non-retryable
error (per `isRetryableError` with the policy's retryable-codes list) is
invoked exactly once by `withRetry`, which fails with that error, for every
value of `maxRetries`. -/
theorem withRetry_fast_fail {α : Type} (fn : ℕ → Except ErrVal α) (e : ErrVal)
    (config : RetryOptions)
    (hop : fn 1 = .error e)
    (hnr : isRetryableError e config.retryableErrors = false) :
    withRetry fn config = (.error e, 1) :=
  withRetry_nonRetryable fn e config hop hnr

/-- Witness for C3: a generic `Error` with message `"boom"` (classified
non-retryable) under the default policy causes a single invocation. -/
theorem withRetry_fast_fail_witness :
    (withRetry (fun _ => .error (.jsError "Error" "boom")) DEFAULT_RETRY_OPTIONS :
        Except ErrVal ℕ × ℕ) = (.error (.jsError "Error" "boom"), 1) :=
  withRetry_fast_fail (fun _ => .error (.jsError "Error" "boom")) (.jsError "Error" "boom")
    DEFAULT_RETRY_OPTIONS rfl rfl

/-- Counterexample to C4 as stated: at `attempt = 2`, `base = 2`, `max = 1`,
`multiplier = 1`, jitter draw `0` (all within the claim's constraints), the
computed delay is `1`, which is **below** `base * multiplier ^ (attempt - 1) = 2`:
the claimed lower bound fails whenever the uncapped delay exceeds `max`. -/
theorem calculateDelay_lower_bound_cex :
    1 ≤ 2 ∧ (0:ℚ) ≤ 2 ∧ (1:ℚ) ≤ 1 ∧ ((0:ℚ) ≤ 0 ∧ (0:ℚ) < 1) ∧
    calculateDelay 2 2 1 1 0 = 1 ∧
    ¬ ((2:ℚ) * 1 ^ (2 - 1) ≤ calculateDelay 2 2 1 1 0) := by
  norm_num [calculateDelay]

/-- Claim C4 (amended): for all `attempt ≥ 1`, `base ≥ 0`, `multiplier ≥ 1`,
and every jitter draw in `[0,1)`, the computed delay is at most `max` and at
least `min (base * multiplier ^ (attempt - 1)) max` — the original lower bound
capped, like the delay itself, at `max`. -/
theorem calculateDelay_bounds_amended (attempt : ℕ)
    (baseDelay maxDelay backoffMultiplier rand : ℚ)
    (hatt : 1 ≤ attempt) (hbase : 0 ≤ baseDelay) (hmult : 1 ≤ backoffMultiplier)
    (hr0 : 0 ≤ rand) (hr1 : rand < 1) :
    calculateDelay attempt baseDelay maxDelay backoffMultiplier rand ≤ maxDelay ∧
    min (baseDelay * backoffMultiplier ^ (attempt - 1)) maxDelay ≤
      calculateDelay attempt baseDelay maxDelay backoffMultiplier rand := by
  simp only [calculateDelay]
  constructor
  · exact min_le_right _ _
  · have hpow : 0 ≤ backoffMultiplier ^ (attempt - 1) := pow_nonneg (by linarith) _
    have hraw : 0 ≤ baseDelay * backoffMultiplier ^ (attempt - 1) := mul_nonneg hbase hpow
    have hj : 0 ≤ rand * (1 / 10) * (baseDelay * backoffMultiplier ^ (attempt - 1)) :=
      mul_nonneg (mul_nonneg hr0 (by norm_num)) hraw
    exact min_le_min (by linarith) le_rfl

/-- Witness for C4 (amended): the first attempt under the default policy
(base 1000, cap 30000, multiplier 2, jitter draw 0). -/
theorem calculateDelay_bounds_amended_witness :
    calculateDelay 1 1000 30000 2 0 ≤ 30000 ∧
    min ((1000:ℚ) * 2 ^ (1 - 1)) 30000 ≤ calculateDelay 1 1000 30000 2 0 :=
  calculateDelay_bounds_amended 1 1000 30000 2 0 le_rfl (by norm_num) (by norm_num)
    le_rfl (by norm_num)

/-- Claim C5: when the first attempt of `retryTransaction` fails with anything
that is not an `Error` whose message contains one of the three storage
signatures (`txIsRetryable` is false), the transactional operation is invoked
exactly once and that failure propagates unchanged. -/
theorem retryTransaction_signature_fast_fail {α : Type} (fn : ℕ → Except TxError α)
    (e : TxError) (maxRetries : ℕ)
    (hop : fn 1 = .error e)
    (hnr : txIsRetryable e = false)
    (hM : 1 ≤ maxRetries) :
    retryTransaction fn maxRetries = (.thrown e, 1) :=
  retryTransaction_nonRetryable fn e maxRetries hop hnr hM

/-- Witness for C5: a transaction failing with
`Error("connection refused")` — no storage signature — under `maxRetries = 3`
is invoked once and the error propagates. -/
theorem retryTransaction_signature_fast_fail_witness :
    (retryTransaction (fun _ => .error (.errorObj "Error" "connection refused")) 3 :
        TxResult ℕ × ℕ) = (.thrown (.errorObj "Error" "connection refused"), 1) :=
  retryTransaction_signature_fast_fail
    (fun _ => .error (.errorObj "Error" "connection refused"))
    (.errorObj "Error" "connection refused") 3 rfl rfl (by norm_num)

/-- Claim C6: a transactional operation failing on every invocation with a
retryable storage signature under `maxRetries ≥ 1` is invoked exactly
`maxRetries` times by `retryTransaction`, which fails with the last observed
error. -/
theorem retryTransaction_attempt_bound {α : Type} (fn : ℕ → Except TxError α)
    (errs : ℕ → TxError) (maxRetries : ℕ)
    (hop : ∀ i, fn i = .error (errs i))
    (hr : ∀ i, txIsRetryable (errs i) = true)
    (hM : 1 ≤ maxRetries) :
    retryTransaction fn maxRetries = (.thrown (errs maxRetries), maxRetries) :=
  retryTransaction_allFail fn errs maxRetries hop hr hM

/-- Witness for C6 (the spec's Scenario C): `fn` always throwing
`Error("deadlock_detected")` with `maxRetries = 2` is invoked exactly 2 times
and the deadlock error propagates. -/
theorem retryTransaction_attempt_bound_witness :
    (retryTransaction (fun _ => .error (.errorObj "Error" "deadlock_detected")) 2 :
        TxResult ℕ × ℕ) = (.thrown (.errorObj "Error" "deadlock_detected"), 2) :=
  retryTransaction_attempt_bound (fun _ => .error (.errorObj "Error" "deadlock_detected"))
    (fun _ => .errorObj "Error" "deadlock_detected") 2 (fun _ => rfl) (fun _ => rfl)
    (by norm_num)

/-- Counterexample to C7 as stated: the structured error
`RATE_LIMIT_EXCEEDED` is marked retryable by the generic classifier, yet with
a policy whose retryable-codes list is empty (`maxRetries = 3`, so attempts
remain) `withRetry` does **not** retry it: `isRetryableError` ignores the
classifier for structured errors, and the operation is invoked exactly once. -/
theorem withRetry_classifier_override_cex :
    (classifyError (.apiError .RATE_LIMIT_EXCEEDED "rate limited")).isRetryable = true ∧
    isRetryableError (.apiError .RATE_LIMIT_EXCEEDED "rate limited") [] = false ∧
    (withRetry (fun _ => .error (.apiError .RATE_LIMIT_EXCEEDED "rate limited"))
        { DEFAULT_RETRY_OPTIONS with retryableErrors := [] } : Except ErrVal ℕ × ℕ) =
      (.error (.apiError .RATE_LIMIT_EXCEEDED "rate limited"), 1) :=
  ⟨rfl, rfl, rfl⟩

/-- Claim C7 (amended): for a structured-error failure inside `withRetry`,
retryability is decided **solely** by membership of the error's code in the
policy's retryable-codes list — the generic `ErrorClassifier` is consulted
only for generic exceptions.  An operation always failing with a structured
error of code `code` is invoked `maxRetries + 1` times when
`code ∈ retryableErrors` and exactly once otherwise. -/
theorem withRetry_structured_membership_only {α : Type} (code : ErrorCode)
    (message : String) (config : RetryOptions) (fn : ℕ → Except ErrVal α)
    (hop : ∀ i, fn i = .error (.apiError code message)) :
    (withRetry fn config).2 =
      if config.retryableErrors.contains code then config.maxRetries + 1 else 1 := by
  by_cases hc : config.retryableErrors.contains code = true
  · rw [withRetry_allFail fn (fun _ => .apiError code message) config hop
      (fun _ => by simp [isRetryableError, hc])]
    simp [hc]
  · have hcf : config.retryableErrors.contains code = false :=
      Bool.eq_false_iff.mpr hc
    rw [withRetry_nonRetryable fn (.apiError code message) config (hop 1)
      (by simp [isRetryableError, hcf])]
    simp [hcf]

/-- Witness for C7 (amended): a `RATE_LIMIT_EXCEEDED` failure under the
default policy, whose retryable-codes list contains the code, yields
`maxRetries + 1 = 4` invocations. -/
theorem withRetry_structured_membership_only_witness :
    (withRetry (fun _ => .error (.apiError .RATE_LIMIT_EXCEEDED "rate limited"))
        DEFAULT_RETRY_OPTIONS : Except ErrVal ℕ × ℕ).2 = 4 := by
  rw [withRetry_structured_membership_only .RATE_LIMIT_EXCEEDED "rate limited"
    DEFAULT_RETRY_OPTIONS _ (fun _ => rfl)]
  rfl

/-- Counterexample to C8 as stated: at `attempt = 1`, `base = -1 < 0`
(jitter draw 0), the spec's contract demands a failure
(`calculateDelaySpec` returns `none`), but the source `calculateDelay`
performs no argument validation and returns the value `-1`. -/
theorem calculateDelay_no_failure_cex :
    ((-1:ℚ) < 0) ∧
    calculateDelaySpec 1 (-1) 10 2 0 = none ∧
    calculateDelay 1 (-1) 10 2 0 = -1 := by
  refine ⟨by norm_num, ?_, ?_⟩
  · simp only [calculateDelaySpec, if_pos]
    norm_num
  · norm_num [calculateDelay, min_def]

/-- Claim C8 (amended): the delay computation never signals an error — it is a
total function with no argument validation, returning a number even when
`base < 0` or `multiplier < 1`.  On the spec's valid domain (`base ≥ 0`,
`multiplier ≥ 1`, together with a nonnegative cap and jitter draw) it returns
a nonnegative duration, and agrees with the spec's contract
(`calculateDelaySpec` succeeds with the same value). -/
theorem calculateDelay_total_nonneg (attempt : ℕ)
    (baseDelay maxDelay backoffMultiplier rand : ℚ)
    (hbase : 0 ≤ baseDelay) (hmult : 1 ≤ backoffMultiplier)
    (hmax : 0 ≤ maxDelay) (hr0 : 0 ≤ rand) :
    0 ≤ calculateDelay attempt baseDelay maxDelay backoffMultiplier rand ∧
    calculateDelaySpec attempt baseDelay maxDelay backoffMultiplier rand =
      some (calculateDelay attempt baseDelay maxDelay backoffMultiplier rand) := by
  constructor
  · simp only [calculateDelay]
    have hpow : 0 ≤ backoffMultiplier ^ (attempt - 1) := pow_nonneg (by linarith) _
    have hraw : 0 ≤ baseDelay * backoffMultiplier ^ (attempt - 1) := mul_nonneg hbase hpow
    have hj : 0 ≤ rand * (1 / 10) * (baseDelay * backoffMultiplier ^ (attempt - 1)) :=
      mul_nonneg (mul_nonneg hr0 (by norm_num)) hraw
    exact le_min (by linarith) hmax
  · simp only [calculateDelaySpec]
    rw [if_neg]
    push_neg
    exact ⟨hbase, hmult⟩

/-- Witness for C8 (amended): the default policy's first-attempt parameters. -/
theorem calculateDelay_total_nonneg_witness :
    0 ≤ calculateDelay 1 1000 30000 2 0 ∧
    calculateDelaySpec 1 1000 30000 2 0 = some (calculateDelay 1 1000 30000 2 0) :=
  calculateDelay_total_nonneg 1 1000 30000 2 0 (by norm_num) (by norm_num)
    (by norm_num) le_rfl

/-- Counterexample to C9 as stated: `ErrorLogger.logError` contains no
exception handler, so an internal failure during emission (a console sink
that throws) propagates to the caller instead of being swallowed. -/
theorem logError_emission_failure_propagates_cex :
    ErrorLogger.logError (fun _ _ => Except.error "console failure") true {}
      "2026-10-11T00:00:00.000Z" (.jsError "Error" "boom") none [] =
      Except.error "console failure" := rfl

/-- Claim C9 (amended): `ErrorLogger.logError` propagates no exception
provided the emission sink does not fail: classification, log-entry
construction and serialization are total and cannot fail, and every run with
a non-throwing console completes normally for every error value, message and
context.  (No swallowing occurs: an emission failure would propagate, as the
counterexample shows.) -/
theorem logError_ok_of_sink_ok (consoleSink : ConsoleSink)
    (hsink : ∀ level logData, consoleSink level logData = Except.ok ())
    (isDevelopment : Bool) (ctx : LogContext) (now : String) (error : ErrVal)
    (message : Option String) (additionalContext : List (String × String)) :
    ErrorLogger.logError consoleSink isDevelopment ctx now error message
      additionalContext = Except.ok () := by
  unfold ErrorLogger.logError outputLog sendToMonitoringService
  simp only [hsink]
  split <;> rfl

/-- Witness for C9 (amended): a non-throwing console in production mode with a
critical error (exercising the monitoring branch as well). -/
theorem logError_ok_of_sink_ok_witness :
    ErrorLogger.logError (fun _ _ => Except.ok ()) false {} "2026-10-11T00:00:00.000Z"
      (.jsError "TypeError" "x is not a function") none [] = Except.ok () :=
  logError_ok_of_sink_ok (fun _ _ => Except.ok ()) (fun _ _ => rfl) false {}
    "2026-10-11T00:00:00.000Z" (.jsError "TypeError" "x is not a function") none []

/-- Claim C10: `retryTransaction` with `maxRetries = 0` never enters the loop
body: the transactional operation is invoked zero times and the call throws
the uninitialized `lastError` variable — the `undefined` value, not a storage
error. -/
theorem retryTransaction_zero_retries {α : Type} (fn : ℕ → Except TxError α) :
    retryTransaction fn 0 = (.thrownUndefined, 0) := by
  rw [retryTransaction, retryTransactionGo]
  norm_num
